import Mathlib

/-!
Shallow embedding of `src/extract_info.py`, the extraction core of the
disaster-ai-pipeline repository.  Text is modelled as `List Char`; the
Python `re` patterns used by the source are embedded as terms of a small
regex language `Re` executed by a fuel-bounded backtracking matcher whose
alternative/greedy/lazy preference order mirrors Python's `re` module.
Each extraction function of the source file is then translated definition
by definition.
-/

/-- ASCII decimal digit, the `\d` class (inputs are ASCII). -/
def isDigitC (c : Char) : Bool := 48 ≤ c.toNat && c.toNat ≤ 57

/-- ASCII uppercase letter, the `[A-Z]` class. -/
def isUpperC (c : Char) : Bool := 65 ≤ c.toNat && c.toNat ≤ 90

/-- ASCII lowercase letter, the `[a-z]` class. -/
def isLowerC (c : Char) : Bool := 97 ≤ c.toNat && c.toNat ≤ 122

/-- Python whitespace (`\s` and `str.strip` default): space, \t, \n, \r, \x0b, \x0c. -/
def isWsPy (c : Char) : Bool :=
  c == ' ' || c == '\t' || c == '\n' || c == '\r' || c.toNat == 11 || c.toNat == 12

/-- Does `l` start with `p`? -/
def startsWithC : List Char → List Char → Bool
  | [], _ => true
  | _ :: _, [] => false
  | a :: as, b :: bs => a == b && startsWithC as bs

/-- When `l` starts with `p`, the rest of `l` after `p`. -/
def dropLit : List Char → List Char → Option (List Char)
  | [], s => some s
  | _ :: _, [] => none
  | a :: as, b :: bs => if a == b then dropLit as bs else none

/-- Substring containment, the Python `needle in hay` test on strings. -/
def containsSub (needle : List Char) : List Char → Bool
  | [] => startsWithC needle []
  | c :: rest => startsWithC needle (c :: rest) || containsSub needle rest

/-- Python `str.strip()`: remove leading and trailing whitespace. -/
def stripC (l : List Char) : List Char :=
  ((l.dropWhile isWsPy).reverse.dropWhile isWsPy).reverse

/-- Python `str.lower()` (ASCII). -/
def lowerC (l : List Char) : List Char := l.map Char.toLower

/-- Regex abstract syntax.  `group` marks the single capturing group each
source pattern has; `starG`/`optG` are greedy, `starL` is lazy. -/
inductive Re where
  | eps : Re
  | cls : (Char → Bool) → Re
  | lit : List Char → Re
  | cat : Re → Re → Re
  | alt : Re → Re → Re
  | starG : Re → Re
  | starL : Re → Re
  | optG : Re → Re
  | group : Re → Re

/-- Left-biased choice with a thunked second branch. -/
def orElseO (a : Option α) (b : Unit → Option α) : Option α :=
  match a with
  | some x => some x
  | none => b ()

/-- Backtracking matcher in continuation-passing style.  The continuation
receives the unconsumed input and the group-1 capture (if the group has
been entered).  Preference order of the explored parses is Python's:
alternatives left first, greedy repetition longest first, lazy repetition
shortest first.  `fuel` bounds the continuation depth; every repetition
step must consume input, as in Python's handling of empty repeats. -/
def mrun : Nat → Re → List Char → Option (List Char) →
    (List Char → Option (List Char) → Option (List Char × List Char)) →
    Option (List Char × List Char)
  | 0, _, _, _, _ => none
  | _ + 1, Re.eps, s, cap, k => k s cap
  | _ + 1, Re.cls p, s, cap, k =>
    match s with
    | [] => none
    | c :: rest => if p c then k rest cap else none
  | _ + 1, Re.lit l, s, cap, k =>
    match dropLit l s with
    | some rest => k rest cap
    | none => none
  | fuel + 1, Re.cat a b, s, cap, k =>
    mrun fuel a s cap (fun s2 c2 => mrun fuel b s2 c2 k)
  | fuel + 1, Re.alt a b, s, cap, k =>
    orElseO (mrun fuel a s cap k) (fun _ => mrun fuel b s cap k)
  | fuel + 1, Re.starG r, s, cap, k =>
    orElseO
      (mrun fuel r s cap (fun s2 c2 =>
        if s2.length < s.length then mrun fuel (Re.starG r) s2 c2 k else none))
      (fun _ => k s cap)
  | fuel + 1, Re.starL r, s, cap, k =>
    orElseO (k s cap)
      (fun _ => mrun fuel r s cap (fun s2 c2 =>
        if s2.length < s.length then mrun fuel (Re.starL r) s2 c2 k else none))
  | fuel + 1, Re.optG r, s, cap, k =>
    orElseO (mrun fuel r s cap k) (fun _ => k s cap)
  | fuel + 1, Re.group r, s, cap, k =>
    mrun fuel r s cap (fun s2 _ => k s2 (some (s.take (s.length - s2.length))))

/-- Try to match `re` at the start of `s`; on success return the group-1
capture and the unconsumed rest of `s`. -/
def matchAt (re : Re) (s : List Char) : Option (List Char × List Char) :=
  mrun ((s.length + 2) * 100) re s none (fun rest cap => some (cap.getD [], rest))

/-- One scan step of `re.findall`: captures of the non-overlapping
leftmost matches, resuming after each match (advancing one character past
a zero-width match or a failed position). -/
def findAllAux (re : Re) : Nat → List Char → List (List Char)
  | 0, _ => []
  | n + 1, s =>
    match matchAt re s with
    | some (cap, rest) =>
      if rest.length < s.length then cap :: findAllAux re n rest
      else
        cap :: (match s with
          | [] => []
          | _ :: t => findAllAux re n t)
    | none =>
      match s with
      | [] => []
      | _ :: t => findAllAux re n t

/-- Python `re.findall` for a pattern with one capturing group. -/
def findAll (re : Re) (s : List Char) : List (List Char) :=
  findAllAux re (s.length + 1) s

/-- One scan step of `re.split`, accumulating the current piece reversed. -/
def rsplitAux (re : Re) : Nat → List Char → List Char → List (List Char)
  | 0, acc, _ => [acc.reverse]
  | n + 1, acc, s =>
    match matchAt re s with
    | some (_, rest) =>
      if rest.length < s.length then acc.reverse :: rsplitAux re n [] rest
      else
        match s with
        | [] => [acc.reverse]
        | c :: t => rsplitAux re n (c :: acc) t
    | none =>
      match s with
      | [] => [acc.reverse]
      | c :: t => rsplitAux re n (c :: acc) t

/-- Python `re.split` on a separator pattern without groups. -/
def rsplit (re : Re) (s : List Char) : List (List Char) :=
  rsplitAux re (s.length + 1) [] s

/-- Ordered alternation `a|b|...` (first alternative preferred). -/
def alts (l : List Re) : Re :=
  l.foldr Re.alt (Re.cls (fun _ => false))

/-- Literal regex from a string literal. -/
def rlit (s : String) : Re := Re.lit s.data

/-- Greedy plus `r+`. -/
def plusG (r : Re) : Re := Re.cat r (Re.starG r)

/-- Lazy plus `r+?`. -/
def plusL (r : Re) : Re := Re.cat r (Re.starL r)

def wsC : Re := Re.cls isWsPy
def digitC : Re := Re.cls isDigitC
def upperC : Re := Re.cls isUpperC
def lowerCC : Re := Re.cls isLowerC

/-- The `.` class (any character but newline; the source compiles without DOTALL). -/
def dotAny : Re := Re.cls (fun c => c.toNat != 10)

/-- The `[^.]` class. -/
def notDot : Re := Re.cls (fun c => c != '.')

/-- `(?:people?|persons?)` -/
def peopleNoun : Re :=
  alts [Re.cat (rlit "peopl") (Re.optG (rlit "e")),
        Re.cat (rlit "person") (Re.optG (rlit "s"))]

/-- Source pattern `(\d+)\s*(?:people?|persons?|individuals?)?\s*(?:died|dead|killed|death|deaths)`. -/
def death_re : Re :=
  Re.cat (Re.group (plusG digitC)) <| Re.cat (Re.starG wsC) <| Re.cat
    (Re.optG (alts [Re.cat (rlit "peopl") (Re.optG (rlit "e")),
                    Re.cat (rlit "person") (Re.optG (rlit "s")),
                    Re.cat (rlit "individual") (Re.optG (rlit "s"))]))
    <| Re.cat (Re.starG wsC)
      (alts [rlit "died", rlit "dead", rlit "killed", rlit "death", rlit "deaths"])

/-- Source pattern `(?:died|dead|killed|death toll|deaths).*?(\d+)`. -/
def death_re2 : Re :=
  Re.cat (alts [rlit "died", rlit "dead", rlit "killed", rlit "death toll", rlit "deaths"])
    (Re.cat (Re.starL dotAny) (Re.group (plusG digitC)))

/-- Source pattern `(\d+)\s*(?:people?|persons?)?\s*(?:injured|wounded|hurt)`. -/
def injured_re : Re :=
  Re.cat (Re.group (plusG digitC)) <| Re.cat (Re.starG wsC) <| Re.cat
    (Re.optG peopleNoun)
    <| Re.cat (Re.starG wsC) (alts [rlit "injured", rlit "wounded", rlit "hurt"])

/-- `\d+(?:,\d+)*(?:\.\d+)?`, a number with separators and optional decimals. -/
def numSep : Re :=
  Re.cat (plusG digitC) <| Re.cat
    (Re.starG (Re.cat (rlit ",") (plusG digitC)))
    (Re.optG (Re.cat (rlit ".") (plusG digitC)))

/-- Source pattern
`(\d+(?:,\d+)*(?:\.\d+)?)\s*(?:million|lakh|thousand|people?|persons?|families)?\s*(?:affected|stranded|marooned|displaced|impacted)`. -/
def affected_re : Re :=
  Re.cat (Re.group numSep) <| Re.cat (Re.starG wsC) <| Re.cat
    (Re.optG (alts [rlit "million", rlit "lakh", rlit "thousand",
                    Re.cat (rlit "peopl") (Re.optG (rlit "e")),
                    Re.cat (rlit "person") (Re.optG (rlit "s")),
                    rlit "families"]))
    <| Re.cat (Re.starG wsC)
      (alts [rlit "affected", rlit "stranded", rlit "marooned", rlit "displaced", rlit "impacted"])

/-- Source pattern
`(?:affected|stranded|marooned|displaced).*?(\d+(?:,\d+)*(?:\.\d+)?)\s*(?:million|lakh|thousand|people?|families)?`. -/
def affected_re2 : Re :=
  Re.cat (alts [rlit "affected", rlit "stranded", rlit "marooned", rlit "displaced"]) <|
  Re.cat (Re.starL dotAny) <| Re.cat (Re.group numSep) <| Re.cat (Re.starG wsC)
    (Re.optG (alts [rlit "million", rlit "lakh", rlit "thousand",
                    Re.cat (rlit "peopl") (Re.optG (rlit "e")),
                    rlit "families"]))

/-- `[A-Z][a-z]+`, one capitalized word. -/
def capWord : Re := Re.cat upperC (plusG lowerCC)

/-- Source pattern `([A-Z][a-z]+(?:\s+[A-Z][a-z]+)?)\s+(?:district|zila|zilla)`. -/
def district_re : Re :=
  Re.cat (Re.group (Re.cat capWord (Re.optG (Re.cat (plusG wsC) capWord))))
    (Re.cat (plusG wsC) (alts [rlit "district", rlit "zila", rlit "zilla"]))

/-- Source pattern `([A-Z][a-z]+(?:\s+[A-Z][a-z]+)?)\s+(?:upazila|upazilla|thana|sub-district)`. -/
def upazila_re : Re :=
  Re.cat (Re.group (Re.cat capWord (Re.optG (Re.cat (plusG wsC) capWord))))
    (Re.cat (plusG wsC) (alts [rlit "upazila", rlit "upazilla", rlit "thana", rlit "sub-district"]))

/-- Shared tail `\s*(?:--|:)\s*([A-Z][^.]+?)(?:\.|,\s*(?:Nearly|Almost|About|\d))`
of the two enumerated-list patterns of the source. -/
def listTail : Re :=
  Re.cat (Re.starG wsC) <| Re.cat (alts [rlit "--", rlit ":"]) <| Re.cat (Re.starG wsC) <|
  Re.cat (Re.group (Re.cat upperC (plusL notDot)))
    (alts [rlit ".",
           Re.cat (rlit ",") (Re.cat (Re.starG wsC)
             (alts [rlit "Nearly", rlit "Almost", rlit "About", digitC]))])

/-- Source pattern `upazilas?\s*(?:--|:)\s*([A-Z][^.]+?)(?:\.|,\s*(?:Nearly|Almost|About|\d))`. -/
def list_re : Re := Re.cat (rlit "upazila") (Re.cat (Re.optG (rlit "s")) listTail)

/-- Source pattern `districts?\s*(?:--|:)\s*([A-Z][^.]+?)(?:\.|,\s*(?:Nearly|Almost|About|\d))`. -/
def district_list_re : Re := Re.cat (rlit "district") (Re.cat (Re.optG (rlit "s")) listTail)

/-- Source split pattern `,\s*(?:and\s+)?`. -/
def sep_re : Re :=
  Re.cat (rlit ",") (Re.cat (Re.starG wsC) (Re.optG (Re.cat (rlit "and") (plusG wsC))))

/-- Source pattern `(?:on|since|from|during)\s+([A-Z][a-z]+\s+\d{1,2}(?:,?\s+\d{4})?)`. -/
def event_date_re : Re :=
  Re.cat (alts [rlit "on", rlit "since", rlit "from", rlit "during"]) <| Re.cat (plusG wsC) <|
  Re.group (Re.cat capWord <| Re.cat (plusG wsC) <| Re.cat
    (Re.cat digitC (Re.optG digitC))
    (Re.optG (Re.cat (Re.optG (rlit ","))
      (Re.cat (plusG wsC) (Re.cat digitC (Re.cat digitC (Re.cat digitC digitC)))))))

/-- The three string lists returned by `extract_categorized_numbers`. -/
structure NumberFacts where
  deaths : List String
  injured : List String
  affected : List String
deriving DecidableEq

/-- Pooled death matches: `death_pattern` then `death_pattern2`, both on
lower-cased text, in the order the source extends the `deaths` list. -/
def deathMatchesAll (text : String) : List String :=
  ((findAll death_re (lowerC text.data)) ++ (findAll death_re2 (lowerC text.data))).map
    (fun c => String.mk c)

/-- Injured matches of `injured_pattern` on lower-cased text. -/
def injuredMatchesAll (text : String) : List String :=
  (findAll injured_re (lowerC text.data)).map (fun c => String.mk c)

/-- Pooled affected matches: `affected_pattern` then `affected_pattern2`,
both on lower-cased text. -/
def affectedMatchesAll (text : String) : List String :=
  ((findAll affected_re (lowerC text.data)) ++ (findAll affected_re2 (lowerC text.data))).map
    (fun c => String.mk c)

/-- Source `extract_categorized_numbers`: each category is the
deduplicated pool of its matches (`list(set(...))`, modelled up to order
by `List.dedup`) or, when the pool is empty, its sentinel string. -/
def extract_categorized_numbers (text : String) : NumberFacts :=
  { deaths :=
      if deathMatchesAll text = [] then ["0 or not mentioned"]
      else (deathMatchesAll text).dedup
    injured :=
      if injuredMatchesAll text = [] then ["not mentioned"]
      else (injuredMatchesAll text).dedup
    affected :=
      if affectedMatchesAll text = [] then ["not mentioned"]
      else (affectedMatchesAll text).dedup }

/-- The two string lists returned by `extract_locations_with_regex`
(this source path has no uncertain category at all). -/
structure RegexLocations where
  districts : List String
  upazilas : List String
deriving DecidableEq

/-- Post-processing of one enumerated-list capture in the source: split
on `,\s*(?:and\s+)?`, strip each piece, keep the non-empty ones. -/
def splitListMatch (m : List Char) : List (List Char) :=
  ((rsplit sep_re m).map stripC).filter (fun p => !p.isEmpty)

/-- Source `extract_locations_with_regex`: four patterns feeding two
deduplicated lists (`list(set(...))` modelled up to order by `List.dedup`). -/
def extract_locations_with_regex (text : String) : RegexLocations :=
  let s := text.data
  let district_matches := findAll district_re s
  let upazila_matches := findAll upazila_re s
  let upazila_list_names := ((findAll list_re s).map splitListMatch).flatten
  let district_list_names := ((findAll district_list_re s).map splitListMatch).flatten
  { districts := ((district_matches ++ district_list_names).map (fun c => String.mk c)).dedup
    upazilas := ((upazila_matches ++ upazila_list_names).map (fun c => String.mk c)).dedup }

/-- An entity span as produced by the external recognizer: surface text,
label, and token offsets.  `stop` models the exclusive end offset the
recognizer calls `end` (a Lean keyword). -/
structure Ent where
  text : String
  label : String
  start : Nat
  stop : Nat
deriving DecidableEq

/-- The recognizer-processed document: its token sequence and its entity
spans.  A slice `doc[a:b].text` is modelled as the tokens joined by
single spaces (the recognizer is a black box; only substring tests are
performed on the slice). -/
structure Doc where
  tokens : List String
  ents : List Ent
deriving DecidableEq

/-- The context window of the source: tokens from `max(0, start - 5)` to
`min(len(doc), end + 5)`, joined and lower-cased. -/
def contextWindow (doc : Doc) (e : Ent) : List Char :=
  let a := e.start - 5
  let b := min doc.tokens.length (e.stop + 5)
  lowerC (String.intercalate " " ((doc.tokens.drop a).take (b - a))).data

/-- Sub-district keywords, checked first by the source. -/
def subKeywords : List String := ["upazila", "upazilla", "thana", "sub-district"]

/-- District keywords, checked second by the source. -/
def distKeywords : List String := ["district", "zila", "zilla"]

/-- `any(keyword in context for keyword in kws)`. -/
def hasAnyKeyword (kws : List String) (ctx : List Char) : Bool :=
  kws.any (fun kw => containsSub kw.data ctx)

/-- The three buckets a place name can land in. -/
inductive LocClass where
  | dist : LocClass
  | upaz : LocClass
  | unc : LocClass
deriving DecidableEq

/-- The per-name classification of the source loop body: the first entity
whose text equals the name and whose label is GPE is inspected (the loop
breaks there); sub-district keywords are tested before district keywords;
no matching entity or no keyword yields uncertain. -/
def classifyLoc (doc : Doc) (loc : String) : LocClass :=
  match doc.ents.find? (fun e => e.text == loc && e.label == "GPE") with
  | none => LocClass.unc
  | some e =>
    if hasAnyKeyword subKeywords (contextWindow doc e) then LocClass.upaz
    else if hasAnyKeyword distKeywords (contextWindow doc e) then LocClass.dist
    else LocClass.unc

/-- The three lists returned by `categorize_locations_by_context`. -/
structure SpacyLocations where
  districts : List String
  upazilas : List String
  uncertain_locations : List String
deriving DecidableEq

/-- One iteration of the source loop: append the name to the bucket its
classification selects. -/
def categorizeStep (doc : Doc) (acc : SpacyLocations) (loc : String) : SpacyLocations :=
  match classifyLoc doc loc with
  | LocClass.upaz => { acc with upazilas := acc.upazilas ++ [loc] }
  | LocClass.dist => { acc with districts := acc.districts ++ [loc] }
  | LocClass.unc => { acc with uncertain_locations := acc.uncertain_locations ++ [loc] }

/-- Source `categorize_locations_by_context`: the loop over the supplied
location names, starting from three empty lists. -/
def categorize_locations_by_context (doc : Doc) (locations : List String) : SpacyLocations :=
  locations.foldl (categorizeStep doc) ⟨[], [], []⟩

/-- The merged record returned by `merge_location_results`. -/
structure MergedLocations where
  districts : List String
  upazilas : List String
  uncertain_locations : List String
deriving DecidableEq

/-- Source `merge_location_results`: per-tier union with deduplication
(`list(set(a + b))` modelled up to order by `List.dedup`); the uncertain
list is passed through from the recognizer path verbatim. -/
def merge_location_results (spacy_results : SpacyLocations) (regex_results : RegexLocations) :
    MergedLocations :=
  { districts := (spacy_results.districts ++ regex_results.districts).dedup
    upazilas := (spacy_results.upazilas ++ regex_results.upazilas).dedup
    uncertain_locations := spacy_results.uncertain_locations }

/-- The GPE surface texts collected by `process_article` from the
recognizer entities, in document order. -/
def gatherGPE (doc : Doc) : List String :=
  (doc.ents.filter (fun e => e.label == "GPE")).map (fun e => e.text)

/-- Matches of the event-date pattern over the whole text, in scan order. -/
def eventDateMatches (text : String) : List String :=
  (findAll event_date_re text.data).map (fun c => String.mk c)

/-- Source `extract_event_date`: first contextual pattern match, else the
first recognizer date annotated as estimated, else the fixed sentinel. -/
def extract_event_date (dates : List String) (text : String) : String :=
  match eventDateMatches text with
  | d :: _ => d
  | [] =>
    match dates with
    | d :: _ => d ++ " (estimated)"
    | [] => "not clearly mentioned"

/-- The location part of `process_article`: categorize the recognizer's
GPE names by context, extract locations by regex, and merge. -/
def processLocations (doc : Doc) (text : String) : MergedLocations :=
  merge_location_results
    (categorize_locations_by_context doc (gatherGPE doc))
    (extract_locations_with_regex text)

/-- Concrete document for a window holding both keyword families: its
only GPE span is "Bogra" with window "bogra upazila in rajshahi district". -/
def c1doc : Doc :=
  ⟨["Bogra", "upazila", "in", "Rajshahi", "district"], [⟨"Bogra", "GPE", 0, 1⟩]⟩

/-- Concrete document whose name "Rangpur" is recognized in two GPE spans
and whose text holds no administrative keyword at all. -/
def c10doc : Doc :=
  ⟨["Rain", "hit", "Rangpur", "yesterday", "and", "Rangpur", "again"],
   [⟨"Rangpur", "GPE", 2, 3⟩, ⟨"Rangpur", "GPE", 5, 6⟩]⟩

/-- The raw text of `c10doc`. -/
def c10text : String := "Rain hit Rangpur yesterday and Rangpur again"

/-- A text whose only contextual date phrase is "on August 21". -/
def c9text : String := "Flooding began on August 21 and spread"

theorem categorize_fold (doc : Doc) (locs : List String) (acc : SpacyLocations) :
    locs.foldl (categorizeStep doc) acc =
      ⟨acc.districts ++ locs.filter (fun l => decide (classifyLoc doc l = LocClass.dist)),
       acc.upazilas ++ locs.filter (fun l => decide (classifyLoc doc l = LocClass.upaz)),
       acc.uncertain_locations ++
         locs.filter (fun l => decide (classifyLoc doc l = LocClass.unc))⟩ := by
  induction locs generalizing acc with
  | nil => simp
  | cons l ls ih =>
    rw [List.foldl_cons, ih]
    cases h : classifyLoc doc l <;>
      simp [categorizeStep, h, List.filter_cons, List.append_assoc]

theorem categorize_eq (doc : Doc) (locs : List String) :
    categorize_locations_by_context doc locs =
      ⟨locs.filter (fun l => decide (classifyLoc doc l = LocClass.dist)),
       locs.filter (fun l => decide (classifyLoc doc l = LocClass.upaz)),
       locs.filter (fun l => decide (classifyLoc doc l = LocClass.unc))⟩ := by
  rw [categorize_locations_by_context, categorize_fold]
  simp

/-- C1: a recognized place name whose inspected 5-token context window
(the window of the first GPE entity carrying that name, clamped to the
document bounds) contains both a sub-district keyword and a district
keyword is categorized as sub-district (upazila) and never as district. -/
theorem claim_C1_tiebreak (doc : Doc) (locations : List String) (loc : String) (e : Ent)
    (hfind : doc.ents.find? (fun x => x.text == loc && x.label == "GPE") = some e)
    (hsub : hasAnyKeyword subKeywords (contextWindow doc e) = true)
    (hdist : hasAnyKeyword distKeywords (contextWindow doc e) = true)
    (hmem : loc ∈ locations) :
    loc ∈ (categorize_locations_by_context doc locations).upazilas ∧
    loc ∉ (categorize_locations_by_context doc locations).districts := by
  have hcls : classifyLoc doc loc = LocClass.upaz := by
    simp [classifyLoc, hfind, hsub]
  rw [categorize_eq]
  refine ⟨List.mem_filter.2 ⟨hmem, decide_eq_true hcls⟩, fun hc => ?_⟩
  have h2 := of_decide_eq_true (List.mem_filter.1 hc).2
  rw [hcls] at h2
  exact LocClass.noConfusion h2

theorem claim_C1_witness :
    "Bogra" ∈ (categorize_locations_by_context c1doc ["Bogra"]).upazilas ∧
    "Bogra" ∉ (categorize_locations_by_context c1doc ["Bogra"]).districts :=
  claim_C1_tiebreak c1doc ["Bogra"] "Bogra" ⟨"Bogra", "GPE", 0, 1⟩ (by decide) (by decide)
    (by decide) (by decide)

/-- C2: the merger keeps every name of the regex extractor's output in
the matching tier of the merged record. -/
theorem claim_C2_merge_complete (text : String) (s : SpacyLocations) (name : String) :
    (name ∈ (extract_locations_with_regex text).districts →
      name ∈ (merge_location_results s (extract_locations_with_regex text)).districts) ∧
    (name ∈ (extract_locations_with_regex text).upazilas →
      name ∈ (merge_location_results s (extract_locations_with_regex text)).upazilas) := by
  constructor <;> intro h <;>
    exact List.mem_dedup.2 (List.mem_append.2 (Or.inr h))

theorem claim_C2_witness :
    "Bogra" ∈ (merge_location_results ⟨[], [], []⟩
      (extract_locations_with_regex "Bogra district was hit")).districts :=
  (claim_C2_merge_complete "Bogra district was hit" ⟨[], [], []⟩ "Bogra").1 (by decide)

/-- C3 fails on the regex path: on "Bogra district and Bogra upazila were
hit." the regex extractor puts "Bogra" in its districts list and in its
upazilas list at once. -/
theorem claim_C3_counterexample :
    "Bogra" ∈ (extract_locations_with_regex
      "Bogra district and Bogra upazila were hit.").districts ∧
    "Bogra" ∈ (extract_locations_with_regex
      "Bogra district and Bogra upazila were hit.").upazilas := by
  decide

/-- C3 amended: within the recognizer-path output of the categorizer a
given place name appears in at most one of the three categories (the
regex path, which the original claim also covered, can put one name in
both of its two tiers). -/
theorem claim_C3_recognizer_invariant (doc : Doc) (locations : List String) (name : String) :
    (name ∈ (categorize_locations_by_context doc locations).districts →
      name ∉ (categorize_locations_by_context doc locations).upazilas ∧
      name ∉ (categorize_locations_by_context doc locations).uncertain_locations) ∧
    (name ∈ (categorize_locations_by_context doc locations).upazilas →
      name ∉ (categorize_locations_by_context doc locations).uncertain_locations) := by
  rw [categorize_eq]
  refine ⟨fun hd => ⟨fun hu => ?_, fun hc => ?_⟩, fun hu hc => ?_⟩
  · have h1 := of_decide_eq_true (List.mem_filter.1 hd).2
    have h2 := of_decide_eq_true (List.mem_filter.1 hu).2
    rw [h1] at h2
    exact LocClass.noConfusion h2
  · have h1 := of_decide_eq_true (List.mem_filter.1 hd).2
    have h2 := of_decide_eq_true (List.mem_filter.1 hc).2
    rw [h1] at h2
    exact LocClass.noConfusion h2
  · have h1 := of_decide_eq_true (List.mem_filter.1 hu).2
    have h2 := of_decide_eq_true (List.mem_filter.1 hc).2
    rw [h1] at h2
    exact LocClass.noConfusion h2

theorem claim_C3_witness :
    "Bogra" ∉ (categorize_locations_by_context c1doc ["Bogra"]).uncertain_locations :=
  (claim_C3_recognizer_invariant c1doc ["Bogra"] "Bogra").2 (by decide)

/-- C4: for all inputs, the merged uncertain list is exactly the
recognizer-path uncertain output; the regex-path record has no uncertain
component to contribute. -/
theorem claim_C4_uncertain_frame (s : SpacyLocations) (r : RegexLocations) :
    (merge_location_results s r).uncertain_locations = s.uncertain_locations := rfl

/-- C5: on the enumerated-list scenario text, the regex extractor's
upazilas output, viewed as a set, is exactly the three listed names. -/
theorem claim_C5_enumerated_list :
    (extract_locations_with_regex
      "the affected upazilas -- Sirajganj, Tangail, and Bogra. Nearly 500 families are marooned.").upazilas.toFinset
      = {"Sirajganj", "Tangail", "Bogra"} := by
  decide

/-- C6 fails on the code: on the scenario text the injured pattern does
not match "40 were injured" (only whitespace and an optional people or
persons noun may stand between the number and the keyword), so the claim
that injured contains "40" is false there. -/
theorem claim_C6_counterexample :
    ¬ ("12" ∈ (extract_categorized_numbers
        "At least 12 people died and 40 were injured").deaths ∧
       "40" ∈ (extract_categorized_numbers
        "At least 12 people died and 40 were injured").injured) := by
  decide

/-- C6 amended: on "At least 12 people died and 40 were injured" the
deaths list contains "12", but the injured list is the sentinel
["not mentioned"] because the injured pattern does not match. -/
theorem claim_C6_deaths_only :
    "12" ∈ (extract_categorized_numbers
      "At least 12 people died and 40 were injured").deaths ∧
    (extract_categorized_numbers
      "At least 12 people died and 40 were injured").injured = ["not mentioned"] := by
  decide

/-- C7 fails on the code: the affected pattern allows at most one unit or
noun word between the number and the keyword, so "2.5 million people have
been affected" does not match and "2.5" is not extracted. -/
theorem claim_C7_counterexample :
    "2.5" ∉ (extract_categorized_numbers
      "Nearly 2.5 million people have been affected").affected := by
  decide

/-- C7 amended: on "Nearly 2.5 million people have been affected" the
affected list is the sentinel ["not mentioned"]. -/
theorem claim_C7_affected_sentinel :
    (extract_categorized_numbers
      "Nearly 2.5 million people have been affected").affected = ["not mentioned"] := by
  decide

/-- C8: each numeric category is never empty; a category with no pattern
matches is exactly its sentinel and a category with matches is exactly
its deduplicated pool of matched values. -/
theorem claim_C8_sentinels (text : String) :
    (extract_categorized_numbers text).deaths ≠ [] ∧
    (extract_categorized_numbers text).injured ≠ [] ∧
    (extract_categorized_numbers text).affected ≠ [] ∧
    (deathMatchesAll text = [] →
      (extract_categorized_numbers text).deaths = ["0 or not mentioned"]) ∧
    (deathMatchesAll text ≠ [] →
      (extract_categorized_numbers text).deaths = (deathMatchesAll text).dedup) ∧
    (injuredMatchesAll text = [] →
      (extract_categorized_numbers text).injured = ["not mentioned"]) ∧
    (injuredMatchesAll text ≠ [] →
      (extract_categorized_numbers text).injured = (injuredMatchesAll text).dedup) ∧
    (affectedMatchesAll text = [] →
      (extract_categorized_numbers text).affected = ["not mentioned"]) ∧
    (affectedMatchesAll text ≠ [] →
      (extract_categorized_numbers text).affected = (affectedMatchesAll text).dedup) := by
  unfold extract_categorized_numbers
  by_cases hd : deathMatchesAll text = [] <;>
    by_cases hi : injuredMatchesAll text = [] <;>
      by_cases ha : affectedMatchesAll text = [] <;>
        simp [hd, hi, ha, List.dedup_eq_nil]

theorem claim_C8_witness :
    (extract_categorized_numbers "").deaths = ["0 or not mentioned"] :=
  (claim_C8_sentinels "").2.2.2.1 (by decide)

/-- C9: the date resolver returns the first whole-text match of the
contextual pattern when one exists; with no such match it returns the
first recognizer date annotated " (estimated)" when the date list is
non-empty, and the literal "not clearly mentioned" otherwise. -/
theorem claim_C9_event_date (dates : List String) (text : String) :
    (∀ d rest, eventDateMatches text = d :: rest → extract_event_date dates text = d) ∧
    (eventDateMatches text = [] → ∀ d rest, dates = d :: rest →
      extract_event_date dates text = d ++ " (estimated)") ∧
    (eventDateMatches text = [] → dates = [] →
      extract_event_date dates text = "not clearly mentioned") := by
  refine ⟨fun d rest h => ?_, fun h d rest hd => ?_, fun h hd => ?_⟩ <;>
    unfold extract_event_date
  · rw [h]
  · rw [h, hd]
  · rw [h, hd]

theorem claim_C9_witness :
    extract_event_date ["May 5"] c9text = "August 21" :=
  (claim_C9_event_date ["May 5"] c9text).1 "August 21" [] (by decide)

/-- C10: the merged uncertain output is not deduplicated: for a
recognizer document holding the same place name in two GPE spans with a
keyword-free window at the first one, the merged uncertain list holds
that name twice, while the merger's district and upazila outputs are
always duplicate-free. -/
theorem claim_C10_uncertain_not_dedup :
    ((processLocations c10doc c10text).uncertain_locations.count "Rangpur" = 2) ∧
    (∀ (s : SpacyLocations) (r : RegexLocations),
      (merge_location_results s r).districts.Nodup ∧
      (merge_location_results s r).upazilas.Nodup) := by
  refine ⟨by decide, fun s r => ⟨List.nodup_dedup _, List.nodup_dedup _⟩⟩
